import Mathlib

/-!
Verification of the business-action classifier in `src/h1/app.js` of the
`aib` repository. The classifier `determineBusinessAction` is embedded
over exact rationals (`ℚ`) with the label supplied as an `Option String`
(`none` models a null/absent JavaScript label). The auxiliary pieces the
claims touch — the label/score fallback extraction in `displaySentiment`
and the try/catch around the HTTP POST in `logToGoogleSheets` — are
embedded alongside.
-/

/-- The immutable value object returned by `determineBusinessAction`:
`{ actionCode, uiMessage, uiColor }`. -/
structure BusinessAction where
  actionCode : String
  uiMessage : String
  uiColor : String
deriving DecidableEq, Repr

/-- The record returned when `normalizedScore <= 0.4` (app.js lines 60-65). -/
def offerCouponAction : BusinessAction :=
  { actionCode := "OFFER_COUPON"
    uiMessage := "🚨 We are truly sorry. Please accept this 50% discount coupon."
    uiColor := "#ef4444" }

/-- The record returned when `0.4 < normalizedScore < 0.7` (app.js lines 66-71). -/
def requestFeedbackAction : BusinessAction :=
  { actionCode := "REQUEST_FEEDBACK"
    uiMessage := "📝 Thank you! Could you tell us how we can improve?"
    uiColor := "#6b7280" }

/-- The record returned when `normalizedScore >= 0.7` (app.js lines 72-78). -/
def askReferralAction : BusinessAction :=
  { actionCode := "ASK_REFERRAL"
    uiMessage := "⭐ Glad you liked it! Refer a friend and earn rewards."
    uiColor := "#3b82f6" }

/-- Embeds JavaScript `String.prototype.toUpperCase` on the labels in play:
each character is uppercased independently. -/
def toUpperCase (s : String) : String := ⟨s.data.map Char.toUpper⟩

/-- Embeds `const upperLabel = label ? label.toUpperCase() : ''` (app.js line 51).
A `none` label models JavaScript null/undefined; the empty string is falsy in
JavaScript, so it also yields `''` (its uppercasing is `''` in any case). -/
def upperLabelOf (label : Option String) : String :=
  match label with
  | none => ""
  | some s => if s = "" then "" else toUpperCase s

/-- Embeds the score normalization of app.js lines 50-57: `confidence` for a
POSITIVE label, `1.0 - confidence` for a NEGATIVE label, `0.5` otherwise. -/
def normalizedScore (confidence : ℚ) (label : Option String) : ℚ :=
  if upperLabelOf label = "POSITIVE" then confidence
  else if upperLabelOf label = "NEGATIVE" then 1 - confidence
  else 1/2

/-- Embeds `determineBusinessAction` (app.js lines 48-79): the normalized
score is pushed through the threshold chain
`<= 0.4` / `< 0.7` / otherwise, first match wins. -/
def determineBusinessAction (confidence : ℚ) (label : Option String) : BusinessAction :=
  if normalizedScore confidence label ≤ 2/5 then offerCouponAction
  else if normalizedScore confidence label < 7/10 then requestFeedbackAction
  else askReferralAction

/-- Tier of an action for the monotonicity property, ordered
OFFER_COUPON < REQUEST_FEEDBACK < ASK_REFERRAL. -/
def actionTier (a : BusinessAction) : Nat :=
  if a.actionCode = "OFFER_COUPON" then 0
  else if a.actionCode = "REQUEST_FEEDBACK" then 1
  else 2

/-- A loosely-typed JavaScript value as far as `displaySentiment` inspects it:
a string, a number (embedded as an exact rational), or anything else. -/
inductive JsVal where
  | str (s : String)
  | num (q : ℚ)
  | other
deriving DecidableEq, Repr

/-- Whether a `JsVal` is a number (`typeof v === "number"`). -/
def JsVal.isNum : JsVal → Bool
  | .num _ => true
  | _ => false

/-- Whether a `JsVal` is a string (`typeof v === "string"`). -/
def JsVal.isStr : JsVal → Bool
  | .str _ => true
  | _ => false

/-- The `result[0][0]` object `displaySentiment` reads `label` and `score`
from; each field may be of the wrong type. -/
structure SentimentData where
  label : JsVal
  score : JsVal
deriving DecidableEq, Repr

/-- Embeds the label/score extraction of `displaySentiment` (app.js lines
229-263): a malformed outer shape (`none` here) or wrong-typed fields fall
back to label `"NEUTRAL"` and score `0.5`; a string label is uppercased. -/
def extractSentiment (result : Option SentimentData) : String × ℚ :=
  match result with
  | none => ("NEUTRAL", 1/2)
  | some d =>
    (match d.label with
     | .str s => toUpperCase s
     | _ => "NEUTRAL",
     match d.score with
     | .num q => q
     | _ => 1/2)

/-- Outcome of the `fetch` POST inside `logToGoogleSheets`: a successful
response, a response with `ok` false carrying `statusText`, or a thrown
network error. -/
inductive FetchOutcome where
  | ok
  | notOk (statusText : String)
  | throws (err : String)
deriving DecidableEq, Repr

/-- Embeds the try-block of `logToGoogleSheets` (app.js lines 216-222):
a non-ok response emits a console warning; a thrown fetch error escapes
the block as `Except.error`. The result carries the list of console
warnings emitted. -/
def fetchAndCheck (outcome : FetchOutcome) : Except String (List String) :=
  match outcome with
  | .ok => .ok []
  | .notOk statusText => .ok ["Failed to log to Google Sheets: " ++ statusText]
  | .throws err => .error err

/-- Embeds `logToGoogleSheets` (app.js lines 208-226): the try/catch turns
every escaping error into a console warning, so the function itself never
rejects. -/
def logToGoogleSheets (outcome : FetchOutcome) : Except String (List String) :=
  match fetchAndCheck outcome with
  | .ok warnings => .ok warnings
  | .error err => .ok ["Error logging to Google Sheets: " ++ err]

/-- The uppercasing step never distinguishes the falsy empty string from
its uppercasing. -/
theorem upperLabelOf_some (s : String) : upperLabelOf (some s) = toUpperCase s := by
  by_cases h : s = ""
  · subst h; decide
  · simp [upperLabelOf, h]

/-- The POSITIVE literal survives uppercasing. -/
theorem upperLabelOf_positive : upperLabelOf (some "POSITIVE") = "POSITIVE" := by decide

/-- The NEGATIVE literal survives uppercasing. -/
theorem upperLabelOf_negative : upperLabelOf (some "NEGATIVE") = "NEGATIVE" := by decide

/-- Normalized score for a literally POSITIVE label. -/
theorem normalizedScore_pos (c : ℚ) : normalizedScore c (some "POSITIVE") = c := by
  simp [normalizedScore, upperLabelOf_positive]

/-- Normalized score for a literally NEGATIVE label. -/
theorem normalizedScore_neg (c : ℚ) : normalizedScore c (some "NEGATIVE") = 1 - c := by
  simp [normalizedScore, upperLabelOf_negative]

/-- Unknown labels give the neutral score. -/
theorem normalizedScore_unknown (c : ℚ) (l : Option String)
    (h1 : upperLabelOf l ≠ "POSITIVE") (h2 : upperLabelOf l ≠ "NEGATIVE") :
    normalizedScore c l = 1/2 := by
  simp [normalizedScore, h1, h2]

/-- C1: determineBusinessAction selects the action from the normalized score
by the first-match-wins chain: score at most 0.4 gives the OFFER_COUPON
record (red, apology/coupon message), score below 0.7 gives the
REQUEST_FEEDBACK record (gray, feedback message), anything else gives the
ASK_REFERRAL record (blue, referral message); in particular score exactly
0.4 (reached at confidence 0.4 on a POSITIVE label) yields OFFER_COUPON and
score exactly 0.7 yields ASK_REFERRAL. -/
theorem c1_threshold_policy :
    (∀ (c : ℚ) (l : Option String),
      determineBusinessAction c l =
        if normalizedScore c l ≤ 2/5 then offerCouponAction
        else if normalizedScore c l < 7/10 then requestFeedbackAction
        else askReferralAction) ∧
    determineBusinessAction (2/5) (some "POSITIVE") = offerCouponAction ∧
    determineBusinessAction (7/10) (some "POSITIVE") = askReferralAction := by
  refine ⟨fun c l => rfl, ?_, ?_⟩ <;>
    · rw [determineBusinessAction, normalizedScore_pos]
      norm_num

/-- C2: the normalized score is the confidence when the label uppercases to
POSITIVE, one minus the confidence when it uppercases to NEGATIVE, and 0.5
for any other label (including an absent label), regardless of confidence. -/
theorem c2_normalized_score (c : ℚ) (l : String) :
    (toUpperCase l = "POSITIVE" → normalizedScore c (some l) = c) ∧
    (toUpperCase l = "NEGATIVE" → normalizedScore c (some l) = 1 - c) ∧
    (toUpperCase l ≠ "POSITIVE" → toUpperCase l ≠ "NEGATIVE" →
      normalizedScore c (some l) = 1/2) ∧
    normalizedScore c none = 1/2 := by
  refine ⟨fun h => ?_, fun h => ?_, fun h1 h2 => ?_, ?_⟩
  · simp [normalizedScore, upperLabelOf_some, h]
  · simp [normalizedScore, upperLabelOf_some, h]
  · simp [normalizedScore, upperLabelOf_some, h1, h2]
  · simp [normalizedScore, upperLabelOf]

/-- C2 witness: the three label shapes at confidence 0.9. -/
theorem c2_normalized_score_witness :
    normalizedScore (9/10) (some "positive") = 9/10 ∧
    normalizedScore (9/10) (some "negative") = 1 - 9/10 ∧
    normalizedScore (9/10) (some "meh") = 1/2 :=
  ⟨(c2_normalized_score (9/10) "positive").1 (by decide),
   (c2_normalized_score (9/10) "negative").2.1 (by decide),
   (c2_normalized_score (9/10) "meh").2.2.1 (by decide) (by decide)⟩

/-- C3: whenever the label's uppercasing is neither POSITIVE nor NEGATIVE
(including the empty string and an absent label), the normalized score is
the neutral 0.5 and the returned action is always REQUEST_FEEDBACK; the
function is total, so this degradation never raises an error. -/
theorem c3_unknown_label_request_feedback (c : ℚ) (l : Option String)
    (h1 : upperLabelOf l ≠ "POSITIVE") (h2 : upperLabelOf l ≠ "NEGATIVE") :
    normalizedScore c l = 1/2 ∧
    determineBusinessAction c l = requestFeedbackAction := by
  have hs := normalizedScore_unknown c l h1 h2
  refine ⟨hs, ?_⟩
  rw [determineBusinessAction, hs]
  norm_num

/-- C3 witness: an unrecognized label and an absent label, at an arbitrary
out-of-band confidence. -/
theorem c3_unknown_label_request_feedback_witness :
    normalizedScore 3 (some "unknown") = 1/2 ∧
    determineBusinessAction 3 (some "unknown") = requestFeedbackAction ∧
    determineBusinessAction (1/4) none = requestFeedbackAction :=
  ⟨(c3_unknown_label_request_feedback 3 (some "unknown") (by decide) (by decide)).1,
   (c3_unknown_label_request_feedback 3 (some "unknown") (by decide) (by decide)).2,
   (c3_unknown_label_request_feedback (1/4) none (by decide) (by decide)).2⟩

/-- C4: for the fixed label POSITIVE, the action tier (OFFER_COUPON = 0 <
REQUEST_FEEDBACK = 1 < ASK_REFERRAL = 2) is monotone in the confidence:
increasing confidence never lowers the tier and decreasing confidence never
raises it. -/
theorem c4_positive_monotone (c1 c2 : ℚ) (h : c1 ≤ c2) :
    actionTier (determineBusinessAction c1 (some "POSITIVE")) ≤
      actionTier (determineBusinessAction c2 (some "POSITIVE")) := by
  simp only [determineBusinessAction, normalizedScore_pos]
  split_ifs <;>
    simp_all [actionTier, offerCouponAction, requestFeedbackAction, askReferralAction] <;>
    linarith

/-- C4 witness: confidence 0.3 versus confidence 0.8 on a POSITIVE label. -/
theorem c4_positive_monotone_witness :
    actionTier (determineBusinessAction (3/10) (some "POSITIVE")) ≤
      actionTier (determineBusinessAction (8/10) (some "POSITIVE")) :=
  c4_positive_monotone (3/10) (8/10) (by norm_num)

/-- C5: totality — for every rational confidence and every label (strings
and the absent label alike), determineBusinessAction returns one of the
three fixed records, so its actionCode is OFFER_COUPON, REQUEST_FEEDBACK or
ASK_REFERRAL; being a total Lean function, it never fails. -/
theorem c5_totality (c : ℚ) (l : Option String) :
    (determineBusinessAction c l = offerCouponAction ∨
     determineBusinessAction c l = requestFeedbackAction ∨
     determineBusinessAction c l = askReferralAction) ∧
    ((determineBusinessAction c l).actionCode = "OFFER_COUPON" ∨
     (determineBusinessAction c l).actionCode = "REQUEST_FEEDBACK" ∨
     (determineBusinessAction c l).actionCode = "ASK_REFERRAL") := by
  unfold determineBusinessAction
  split_ifs <;>
    simp [offerCouponAction, requestFeedbackAction, askReferralAction]

/-- C6: no clamping or range validation — the normalized score equals the
raw confidence for a POSITIVE label and one minus it for a NEGATIVE label
even outside [0,1]; in particular confidence 2.0 with POSITIVE yields
ASK_REFERRAL and confidence -1.0 with POSITIVE yields OFFER_COUPON. -/
theorem c6_no_clamping (c : ℚ) :
    normalizedScore c (some "POSITIVE") = c ∧
    normalizedScore c (some "NEGATIVE") = 1 - c ∧
    determineBusinessAction 2 (some "POSITIVE") = askReferralAction ∧
    determineBusinessAction (-1) (some "POSITIVE") = offerCouponAction := by
  refine ⟨normalizedScore_pos c, normalizedScore_neg c, ?_, ?_⟩ <;>
    · rw [determineBusinessAction, normalizedScore_pos]
      norm_num

/-- C7: when the inference result's score field is not a number, the
confidence substituted before classification is 0.5, and when the label
field is not a string the substituted label is the neutral NEUTRAL, so the
classifier is invoked with the documented fallback values; NEUTRAL feeds
the unknown branch of the classifier. -/
theorem c7_non_numeric_score_fallback (d : SentimentData)
    (h : d.score.isNum = false) :
    (extractSentiment (some d)).2 = 1/2 ∧
    (d.label.isStr = false → (extractSentiment (some d)).1 = "NEUTRAL") ∧
    determineBusinessAction (extractSentiment (some d)).2
        (some (extractSentiment (some d)).1) =
      determineBusinessAction (1/2) (some (extractSentiment (some d)).1) := by
  have hs : (extractSentiment (some d)).2 = 1/2 := by
    cases hsc : d.score <;> simp_all [extractSentiment, JsVal.isNum]
  refine ⟨hs, fun hl => ?_, by rw [hs]⟩
  cases hlb : d.label <;> simp_all [extractSentiment, JsVal.isStr]

/-- C7 witness: both fields of the wrong type. -/
theorem c7_non_numeric_score_fallback_witness :
    (extractSentiment (some ⟨JsVal.other, JsVal.other⟩)).2 = 1/2 ∧
    (extractSentiment (some ⟨JsVal.other, JsVal.other⟩)).1 = "NEUTRAL" :=
  ⟨(c7_non_numeric_score_fallback ⟨JsVal.other, JsVal.other⟩ rfl).1,
   (c7_non_numeric_score_fallback ⟨JsVal.other, JsVal.other⟩ rfl).2.1 rfl⟩

/-- C8: determinism and purity — two calls of determineBusinessAction with
identical confidence and label arguments return identical records, with
identical actionCode, uiMessage and uiColor; the embedded function takes no
state, so no hidden state can influence the result. -/
theorem c8_deterministic (c1 c2 : ℚ) (l1 l2 : Option String)
    (hc : c1 = c2) (hl : l1 = l2) :
    determineBusinessAction c1 l1 = determineBusinessAction c2 l2 ∧
    (determineBusinessAction c1 l1).actionCode =
      (determineBusinessAction c2 l2).actionCode ∧
    (determineBusinessAction c1 l1).uiMessage =
      (determineBusinessAction c2 l2).uiMessage ∧
    (determineBusinessAction c1 l1).uiColor =
      (determineBusinessAction c2 l2).uiColor := by
  subst hc; subst hl
  exact ⟨rfl, rfl, rfl, rfl⟩

/-- C8 witness: two identical calls at confidence 0.9 on POSITIVE. -/
theorem c8_deterministic_witness :
    determineBusinessAction (9/10) (some "POSITIVE") =
      determineBusinessAction (9/10) (some "POSITIVE") :=
  (c8_deterministic (9/10) (9/10) (some "POSITIVE") (some "POSITIVE") rfl rfl).1

/-- C9: logging failures are non-fatal — for every fetch outcome (success,
non-ok response, thrown network error) logToGoogleSheets resolves with
`Except.ok` and never propagates an error to its caller; each failure path
produces exactly the corresponding console warning; and the classifier's
result does not mention the logging outcome at all, so a logging failure
cannot change it. -/
theorem c9_logging_nonfatal (statusText err : String) :
    logToGoogleSheets FetchOutcome.ok = Except.ok [] ∧
    logToGoogleSheets (FetchOutcome.notOk statusText) =
      Except.ok ["Failed to log to Google Sheets: " ++ statusText] ∧
    logToGoogleSheets (FetchOutcome.throws err) =
      Except.ok ["Error logging to Google Sheets: " ++ err] ∧
    ∀ o : FetchOutcome, ∃ warnings, logToGoogleSheets o = Except.ok warnings := by
  refine ⟨rfl, rfl, rfl, fun o => ?_⟩
  cases o <;> exact ⟨_, rfl⟩

/-- C10: label duality — under exact rational arithmetic, classifying
confidence c with a NEGATIVE label returns exactly the same record as
classifying 1 - c with a POSITIVE label. -/
theorem c10_negative_positive_duality (c : ℚ) :
    determineBusinessAction c (some "NEGATIVE") =
      determineBusinessAction (1 - c) (some "POSITIVE") := by
  simp only [determineBusinessAction, normalizedScore_pos, normalizedScore_neg]
